import Mathlib

/-!
Verification of the conversational core of the WikipediaChatbot repository
(`src/main.py`) against its natural-language specification.

The embedding is shallow: each Python function of `main.py` that the claims
touch is translated into a Lean definition.  External collaborators (the
LangChain agent executor, the OpenAI completion service, the `wikipedia`
package's `summary` call) are modelled as oracle parameters: a call that can
either raise or return a value becomes an `Except`/inductive-valued argument,
so every theorem quantifies over every possible behaviour of the collaborator.
Python exceptions raised by repository code become explicit control flow,
exactly mirroring the `try`/`except` structure of the source.
-/

namespace WikipediaChatbot

/-- Message roles stored in the conversation memory
(`HumanMessage` / `AIMessage` in `main.py`). -/
inductive Role
  | user
  | assistant
  deriving DecidableEq, Repr

/-- One message of the conversation history. -/
structure Msg where
  role : Role
  content : String
  deriving DecidableEq, Repr

/-- The fixed user-safe error reply of `get_chat_response` (main.py line 146). -/
def errorReply : String := "Sorry, I encountered an error while processing your request."

/-- The prompt handed to `llm.predict` by the fallback branch
(main.py line 140: `f"Provide an answer to: {user_input}"`). -/
def fallbackPrompt (u : String) : String := "Provide an answer to: " ++ u

/-- Python `"iteration limit" in response["output"].lower()` (main.py line 128):
the lowercase literal is searched in the lowercased output, i.e. a
case-insensitive substring test (`Char.toLower` is Python `str.lower` on the
ASCII range the marker lives in). -/
def hasIterationLimit (s : String) : Bool :=
  decide ("iteration limit".toList <:+: (s.toList.map Char.toLower))

/-- Outcome of `agent_executor.invoke({"input": user_input})` (main.py line 124),
as observed by `get_chat_response`:
`Except.error ()` models the call raising any exception;
`Except.ok none` models a returned value that is falsy or lacks the
`"output"` key (so `response and "output" in response` is false);
`Except.ok (some out)` models a dict with output text `out`. -/
abbrev AgentResp := Except Unit (Option String)

/-- Result of one turn of `get_chat_response`: the memory after the turn, the
returned reply, whether the fallback completion branch was entered, and the
list of prompts sent to `llm.predict` during the turn. -/
structure TurnResult where
  memory : List Msg
  reply : String
  usedFallback : Bool
  fallbackCalls : List String
  deriving Repr

/-- The fallback branch of `get_chat_response` (main.py lines 138-146): one
`llm.predict` call on the wrapped utterance; on success its text is appended
as the assistant message and returned; if it raises, the outer `except`
returns the fixed error reply and nothing more is appended. -/
def runFallback (llm : String → Except Unit String) (mem1 : List Msg) (u : String) :
    TurnResult :=
  match llm (fallbackPrompt u) with
  | Except.ok fb => ⟨mem1 ++ [⟨Role.assistant, fb⟩], fb, true, [fallbackPrompt u]⟩
  | Except.error _ => ⟨mem1, errorReply, true, [fallbackPrompt u]⟩

/-- Function `get_chat_response(user_input)` (main.py lines 106-146).
`a` is the behaviour of `agent_executor.invoke`, `llm` the behaviour of
`llm.predict`, `mem` the conversation memory before the turn, `u` the
utterance.  The human message is appended first (line 119).

Because line 100 passes `memory=memory` into `AgentExecutor.from_agent_and_tools`,
every `agent_executor.invoke` call that returns a result itself writes to the
same `memory.chat_memory`: LangChain's `Chain.invoke` ends with
`prep_outputs`, whose `memory.save_context(inputs, outputs)` appends a
duplicate `HumanMessage(user_input)` and an `AIMessage(outputs["output"])`.
That save pair is the `mem2` extension in the valid-output branch.  When the
invoke raises, `prep_outputs` is never reached, so no save pair is written;
and a returned-but-invalid result (falsy, or lacking the `"output"` key —
the guard of line 127) cannot have completed `save_context` either, since
`save_context` itself reads the `"output"` key and would have raised inside
the invoke, so the fall-through cases carry no save pair.

On a valid output without the iteration-limit marker, the output is appended
once more (line 132) and returned; every other case — the invoke raising, an
invalid response, or the iteration-limit marker (which the code converts
into a raised `ValueError`, caught by the inner `except`) — falls through to
the fallback branch. -/
def get_chat_response (a : AgentResp) (llm : String → Except Unit String)
    (mem : List Msg) (u : String) : TurnResult :=
  let mem1 := mem ++ [⟨Role.user, u⟩]
  match a with
  | Except.ok (some out) =>
      let mem2 := mem1 ++ [⟨Role.user, u⟩, ⟨Role.assistant, out⟩]
      if hasIterationLimit out then
        runFallback llm mem2 u
      else
        ⟨mem2 ++ [⟨Role.assistant, out⟩], out, false, []⟩
  | _ => runFallback llm mem1 u

/-- Number of assistant messages in a list of messages. -/
def countAssistant (l : List Msg) : Nat :=
  (l.filter (fun m => m.role = Role.assistant)).length

/-! ## Topic-lookup adapter (`search_wikipedia`, main.py lines 45-54) -/

/-- Python regex character class `[a-zA-Z0-9\s]` of main.py line 47.
`Char.isAlpha`/`Char.isDigit` are exactly the ASCII ranges `a-z`, `A-Z`,
`0-9`; the whitespace class is Python's `\s` restricted to the ASCII plane
(on full Unicode, Python `\s` and `str.strip()` additionally accept the rare
Unicode whitespace code points; no claim depends on those). -/
def keepChar (c : Char) : Bool :=
  c.isAlpha || c.isDigit || c = ' ' || c = '\t' || c = '\n' ||
    c = '\x0b' || c = '\x0c' || c = '\r'

/-- Whitespace as stripped by Python `str.strip()` (ASCII range). -/
def pyIsSpace (c : Char) : Bool :=
  c = ' ' || c = '\t' || c = '\n' || c = '\x0b' || c = '\x0c' || c = '\r'

/-- Python `str.strip()`: drop leading and trailing whitespace. -/
def pyStrip (l : List Char) : List Char :=
  ((l.dropWhile pyIsSpace).reverse.dropWhile pyIsSpace).reverse

/-- Python `re.sub(r'[^a-zA-Z0-9\s]', '', query).strip()` (main.py line 47):
delete every character outside the class, then strip. -/
def sanitize (query : String) : String :=
  ⟨pyStrip (query.data.filter keepChar)⟩

/-- Possible outcomes of the `wikipedia.summary(sanitized_query, sentences=2)`
call (main.py line 48), an external collaborator:
a summary text, a `DisambiguationError` carrying the page title and the
candidate option titles, a `PageError`, or any other exception with its
`str(e)` text. -/
inductive WikiOutcome
  | ok (text : String)
  | disambiguation (title : String) (options : List String)
  | pageError
  | otherError (msg : String)
  deriving Repr

/-- Python `"\n".join(options)`. -/
def joinNewline : List String → String
  | [] => ""
  | [s] => s
  | s :: t :: rest => s ++ "\n" ++ joinNewline (t :: rest)

/-- Rendering of `str(e)` for a `wikipedia.exceptions.DisambiguationError`: the library
renders `"{title}" may refer to: \n{options joined by newlines}`. -/
def disambiguationStr (title : String) (options : List String) : String :=
  "\"" ++ title ++ "\" may refer to: \n" ++ joinNewline options

/-- Function `search_wikipedia(query)` (main.py lines 45-54), with the external
`summary` call abstracted as the oracle `wiki` on the sanitized query.
Every branch of the `try`/`except` returns a string; no exception escapes. -/
def search_wikipedia (wiki : String → WikiOutcome) (query : String) : String :=
  match wiki (sanitize query) with
  | WikiOutcome.ok t => t
  | WikiOutcome.disambiguation title options =>
      "Multiple results found: " ++ disambiguationStr title options
  | WikiOutcome.pageError => "No results found on Wikipedia."
  | WikiOutcome.otherError msg => "Error: " ++ msg

/-! ## Clock adapter (`get_current_time`, main.py lines 57-61) -/

/-- Zero-padded two-digit rendering (strftime `%m`, `%d`, `%I`, `%M`). -/
def pad2 (n : Nat) : String :=
  if n < 10 then "0" ++ toString n else toString n

/-- Zero-padded four-digit rendering (strftime `%Y`). -/
def pad4 (n : Nat) : String :=
  if n < 10 then "000" ++ toString n
  else if n < 100 then "00" ++ toString n
  else if n < 1000 then "0" ++ toString n
  else toString n

/-- Proleptic Gregorian date from a day count since 1970-01-01
(the standard civil-from-days algorithm used by calendar arithmetic),
returned as (year, month, day). -/
def civilFromDays (z0 : Nat) : Nat × Nat × Nat :=
  let z := z0 + 719468
  let era := z / 146097
  let doe := z % 146097
  let yoe := (doe - doe / 1460 + doe / 36524 - doe / 146096) / 365
  let y := yoe + era * 400
  let doy := doe - (365 * yoe + yoe / 4 - yoe / 100)
  let mp := (5 * doy + 2) / 153
  let d := doy - (153 * mp + 2) / 5 + 1
  let m := if mp < 10 then mp + 3 else mp - 9
  (if m ≤ 2 then y + 1 else y, m, d)

/-- 12-hour clock value of strftime `%I` (as a number; `pad2` zero-pads it). -/
def hour12 (h : Nat) : Nat :=
  if h % 12 = 0 then 12 else h % 12

/-- strftime `%p`: `AM` before noon, `PM` from noon on. -/
def ampm (h : Nat) : String := if h % 24 < 12 then "AM" else "PM"

/-- The strftime format string `"%Y-%m-%d %I:%M %p"` of main.py line 61
applied to a calendar date and a 24-hour time. -/
def strftimeEst (y m d h mi : Nat) : String :=
  pad4 y ++ "-" ++ pad2 m ++ "-" ++ pad2 d ++ " " ++
    pad2 (hour12 h) ++ ":" ++ pad2 mi ++ " " ++ ampm h

/-- Function `get_current_time()` (main.py lines 57-61).  The current instant is the
parameter `utcMinutes` (minutes since the epoch, UTC); `hostOffset` is the
host machine's local-timezone offset, which `datetime.now(est_timezone)`
never consults because the code passes the fixed `timezone(timedelta(hours=-5))`
explicitly: the instant is rendered at UTC-5 = 300 minutes behind UTC. -/
def get_current_time (_hostOffset : Int) (utcMinutes : Nat) : String :=
  let estMinutes := utcMinutes - 300
  let ymd := civilFromDays (estMinutes / 1440)
  strftimeEst ymd.1 ymd.2.1 ymd.2.2 ((estMinutes % 1440) / 60) (estMinutes % 60)

/-! ## Conversation window (`memory`, main.py lines 83-87)

`memory = ConversationBufferWindowMemory(memory_key="chat_history",
return_messages=True, k=5)`.  The class comes from the LangChain library
(outside this repository): its `chat_memory` is an unbounded message list that
`add_message` appends to, and the window handed to the agent's prompt is the
slice `messages[-k*2:]` of the **last** `2k` stored messages — the store is
never pruned. -/

/-- The window view `messages[-k*2:]` that `ConversationBufferWindowMemory`
supplies as `chat_history` when building a prompt. -/
def windowView (k : Nat) (mem : List Msg) : List Msg :=
  mem.drop (mem.length - 2 * k)

/-- The `k` configured at main.py line 86. -/
def memoryK : Nat := 5

/-! ## Reasoning loop (`agent_executor`, main.py lines 96-103)

`AgentExecutor.from_agent_and_tools(..., handle_parsing_errors=True,
max_iterations=20)`.  The executor's loop lives in the LangChain library
(outside this repository): while the iteration counter is below
`max_iterations` it asks the agent to plan; a final answer ends the loop, a
tool action or an unparseable reply (turned into an observation because
`handle_parsing_errors=True`) consumes one iteration and continues; if the
budget runs out the executor returns the early-stop answer
`"Agent stopped due to iteration limit or time limit."`. -/

/-- What the planning step produces at one iteration: a final answer, a tool
action (name and input, including actions naming unknown tools, which become
observations), or a reply that fails to parse. -/
inductive StepOutcome
  | finish (answer : String)
  | act (tool : String) (input : String)
  | parseFailure
  deriving Repr

/-- Terminal state of the loop: `finished` carries the agent's final answer,
`stopped` is the early-stop (Fail) state reached when the budget is spent. -/
inductive LoopResult
  | finished (answer : String)
  | stopped
  deriving DecidableEq, Repr

/-- The early-stop output text produced in the `stopped` state. -/
def iterationLimitMsg : String := "Agent stopped due to iteration limit or time limit."

/-- The executor's while-loop: `plan` gives the step at each iteration index;
`fuel` is the remaining budget, `iters` the iterations already consumed.
Returns the terminal state and the total number of iterations consumed. -/
def runLoop (plan : Nat → StepOutcome) : Nat → Nat → LoopResult × Nat
  | 0, iters => (LoopResult.stopped, iters)
  | fuel + 1, iters =>
      match plan iters with
      | StepOutcome.finish a => (LoopResult.finished a, iters)
      | StepOutcome.act _ _ => runLoop plan fuel (iters + 1)
      | StepOutcome.parseFailure => runLoop plan fuel (iters + 1)

/-- The `max_iterations` configured at main.py line 102. -/
def max_iterations : Nat := 20

/-- One full `agent_executor.invoke` run: the loop with budget
`max_iterations`, starting at iteration 0. -/
def agent_executor (plan : Nat → StepOutcome) : LoopResult × Nat :=
  runLoop plan max_iterations 0

/-! ## Web boundary (`chat_api`, main.py lines 203-218) -/

/-- Outcome of the `POST /chat` route: HTTP status plus the JSON payload the
route builds.  `serverError` is the `except` branch of lines 216-218 (its
body interpolates `str(e)`). -/
inductive ApiResult
  | ok (response : String)
  | badRequest
  | unauthorized
  | serverError (msg : String)
  deriving DecidableEq, Repr

/-- Route handler `chat_api()` (main.py lines 203-218).  `loggedIn` models
`"username" in session`; `jsonInput` models `request.get_json().get("input")`
(`none` when the key is absent, and Python treats the empty string as falsy
too, so both yield the 400 response).  `get_chat_response` is total in this
model — it catches every internal exception itself — so the `serverError`
branch is never taken on a turn failure. -/
def chat_api (loggedIn : Bool) (jsonInput : Option String) (a : AgentResp)
    (llm : String → Except Unit String) (mem : List Msg) : ApiResult :=
  if !loggedIn then
    ApiResult.unauthorized
  else
    match jsonInput with
    | none => ApiResult.badRequest
    | some u =>
        if u = "" then ApiResult.badRequest
        else ApiResult.ok (get_chat_response a llm mem u).reply

/-- Boolean test for a failed fallback completion call. -/
def isErr (e : Except Unit String) : Bool :=
  match e with
  | Except.error _ => true
  | Except.ok _ => false

/-- The memory after one successful agent turn (a valid agent output without
the iteration-limit marker), used to exercise the conversation window. -/
def successTurn (mem : List Msg) : List Msg :=
  (get_chat_response (Except.ok (some "an answer"))
    (fun _ => Except.ok "unused") mem "a question").memory

/-- The memory after `n` consecutive successful turns starting empty. -/
def memAfterTurns : Nat → List Msg
  | 0 => []
  | n + 1 => successTurn (memAfterTurns n)

/-! ## Helper lemmas -/

theorem runFallback_usedFallback (llm : String → Except Unit String) (mem1 : List Msg)
    (u : String) : (runFallback llm mem1 u).usedFallback = true := by
  unfold runFallback
  cases llm (fallbackPrompt u) <;> rfl

theorem runFallback_calls (llm : String → Except Unit String) (mem1 : List Msg)
    (u : String) : (runFallback llm mem1 u).fallbackCalls = [fallbackPrompt u] := by
  unfold runFallback
  cases llm (fallbackPrompt u) <;> rfl

theorem runFallback_reply_ok (llm : String → Except Unit String) (mem1 : List Msg)
    (u : String) (fb : String) (h : llm (fallbackPrompt u) = Except.ok fb) :
    (runFallback llm mem1 u).reply = fb := by
  unfold runFallback
  rw [h]

theorem runFallback_reply_err (llm : String → Except Unit String) (mem1 : List Msg)
    (u : String) (h : llm (fallbackPrompt u) = Except.error ()) :
    (runFallback llm mem1 u).reply = errorReply := by
  unfold runFallback
  rw [h]

theorem runFallback_memory (llm : String → Except Unit String) (mem1 : List Msg)
    (u : String) :
    ∃ rest, (runFallback llm mem1 u).memory = mem1 ++ rest := by
  unfold runFallback
  cases llm (fallbackPrompt u) with
  | ok fb => exact ⟨[⟨Role.assistant, fb⟩], rfl⟩
  | error e => exact ⟨[], by simp⟩

theorem turn_memory_shape (a : AgentResp) (llm : String → Except Unit String)
    (mem : List Msg) (u : String) :
    ∃ rest, (get_chat_response a llm mem u).memory = mem ++ ⟨Role.user, u⟩ :: rest := by
  unfold get_chat_response
  cases a with
  | error e =>
      obtain ⟨rest, hmem⟩ := runFallback_memory llm (mem ++ [⟨Role.user, u⟩]) u
      exact ⟨rest, by rw [hmem, List.append_assoc]; rfl⟩
  | ok o =>
      cases o with
      | none =>
          obtain ⟨rest, hmem⟩ := runFallback_memory llm (mem ++ [⟨Role.user, u⟩]) u
          exact ⟨rest, by rw [hmem, List.append_assoc]; rfl⟩
      | some out =>
          by_cases h : hasIterationLimit out
          · obtain ⟨rest, hmem⟩ := runFallback_memory llm
              ((mem ++ [⟨Role.user, u⟩]) ++ [⟨Role.user, u⟩, ⟨Role.assistant, out⟩]) u
            refine ⟨[⟨Role.user, u⟩, ⟨Role.assistant, out⟩] ++ rest, ?_⟩
            simp only [h, if_true]
            rw [hmem, List.append_assoc, List.append_assoc]
            rfl
          · refine ⟨[⟨Role.user, u⟩, ⟨Role.assistant, out⟩, ⟨Role.assistant, out⟩], ?_⟩
            simp only [eq_false_of_ne_true h, if_false, Bool.false_eq_true]
            rw [List.append_assoc, List.append_assoc]
            rfl

theorem runFallback_count (llm : String → Except Unit String) (mem pre : List Msg)
    (u : String) :
    countAssistant ((runFallback llm (mem ++ pre) u).memory.drop mem.length) =
      countAssistant pre + (if isErr (llm (fallbackPrompt u)) then 0 else 1) := by
  unfold runFallback isErr
  cases llm (fallbackPrompt u) with
  | ok fb =>
      show countAssistant
          (((mem ++ pre) ++ [Msg.mk Role.assistant fb]).drop mem.length) =
        countAssistant pre + 1
      rw [List.append_assoc, List.drop_left]
      unfold countAssistant
      rw [List.filter_append, List.length_append]
      rfl
  | error e =>
      show countAssistant ((mem ++ pre).drop mem.length) = countAssistant pre + 0
      rw [List.drop_left]
      exact (Nat.add_zero _).symm

/-! ## Claim theorems -/

/-- C1: the fallback completion branch is entered if and only if the agent run
ends in failure (`agent_executor.invoke` raises, or its result is falsy or
lacks the `"output"` key) or the agent's answer contains `"iteration limit"`
case-insensitively; in every other case the agent's own output is returned
and no fallback completion is issued. -/
theorem fallback_fires_iff (a : AgentResp) (llm : String → Except Unit String)
    (mem : List Msg) (u : String) :
    ((get_chat_response a llm mem u).usedFallback = true ↔
      a = Except.error () ∨ a = Except.ok none ∨
        ∃ out, a = Except.ok (some out) ∧ hasIterationLimit out = true) ∧
    (∀ out, a = Except.ok (some out) → hasIterationLimit out = false →
      (get_chat_response a llm mem u).reply = out ∧
      (get_chat_response a llm mem u).usedFallback = false ∧
      (get_chat_response a llm mem u).fallbackCalls = []) := by
  unfold get_chat_response
  cases a with
  | error e =>
      cases e
      refine ⟨?_, ?_⟩
      · simp [runFallback_usedFallback]
      · intro out h
        exact absurd h (by simp)
  | ok o =>
      cases o with
      | none =>
          refine ⟨?_, ?_⟩
          · simp [runFallback_usedFallback]
          · intro out h
            exact absurd h (by simp)
      | some out =>
          by_cases h : hasIterationLimit out
          · refine ⟨?_, ?_⟩
            · simp only [h, if_true]
              simp only [runFallback_usedFallback, true_iff]
              exact Or.inr (Or.inr ⟨out, rfl, h⟩)
            · intro o2 ho2 hno
              have heq : out = o2 := Option.some_inj.mp (Except.ok.inj ho2)
              subst heq
              exact Bool.noConfusion (h.symm.trans hno)
          · refine ⟨?_, ?_⟩
            · simp only [eq_false_of_ne_true h, if_false, Bool.false_eq_true, false_iff]
              push_neg
              refine ⟨by simp, by simp, ?_⟩
              intro o2 ho2
              have heq : out = o2 := Option.some_inj.mp (Except.ok.inj ho2)
              subst heq
              simpa using h
            · intro o2 ho2 hno
              have heq : out = o2 := Option.some_inj.mp (Except.ok.inj ho2)
              subst heq
              simp [eq_false_of_ne_true h]

/-- C1 witness: a valid agent answer without the marker is returned as-is and
triggers no fallback completion. -/
theorem fallback_fires_iff_witness :
    (get_chat_response (Except.ok (some "The answer."))
      (fun _ => Except.ok "unused") [] "q").reply = "The answer." :=
  ((fallback_fires_iff (Except.ok (some "The answer."))
      (fun _ => Except.ok "unused") [] "q").2 "The answer." rfl (by decide)).1

/-- C2 counterexample: the turn never appends exactly one assistant message
in either extreme — when the agent run raises and the fallback completion
also raises, the turn returns the fixed error reply having appended zero
assistant messages; and on a plain successful agent turn the chain's
`save_context` (memory wired into the executor at line 100) and the explicit
`add_message` of line 132 together append two. -/
theorem one_assistant_counterexample :
    ((get_chat_response (Except.error ()) (fun _ => Except.error ()) [] "hi").reply
        = errorReply ∧
      countAssistant (get_chat_response (Except.error ())
        (fun _ => Except.error ()) [] "hi").memory = 0) ∧
    countAssistant (get_chat_response (Except.ok (some "The answer."))
        (fun _ => Except.ok "unused") [] "hi").memory = 2 := by
  exact ⟨⟨rfl, rfl⟩, by decide⟩

/-- C2 amended: per call to `get_chat_response` the number of assistant
messages appended to the Conversation Window is the sum of two sources —
one from the chain's `save_context` whenever the agent run returns a valid
output (memory is wired into the executor at line 100), and one from the
explicit `add_message` whenever the turn produces an answer (the agent
answer is accepted at line 132, or the fallback completion succeeds at
line 141).  So a successful agent turn appends two (duplicates of the same
answer), a marker-then-successful-fallback turn appends two, a turn where
only one source ran appends one, and the double-failure turn ending with
the fixed error reply appends zero — never uniformly one per turn. -/
theorem assistant_messages_per_turn (a : AgentResp)
    (llm : String → Except Unit String) (mem : List Msg) (u : String) :
    countAssistant ((get_chat_response a llm mem u).memory.drop mem.length) =
      (match a with
        | Except.ok (some _) => 1
        | _ => 0) +
      (if (get_chat_response a llm mem u).usedFallback then
        (if isErr (llm (fallbackPrompt u)) then 0 else 1)
       else 1) := by
  unfold get_chat_response
  cases a with
  | error e =>
      rw [runFallback_usedFallback]
      have h := runFallback_count llm mem [⟨Role.user, u⟩] u
      have h0 : countAssistant [(⟨Role.user, u⟩ : Msg)] = 0 := rfl
      rw [h0, Nat.zero_add] at h
      simpa using h
  | ok o =>
      cases o with
      | none =>
          rw [runFallback_usedFallback]
          have h := runFallback_count llm mem [⟨Role.user, u⟩] u
          have h0 : countAssistant [(⟨Role.user, u⟩ : Msg)] = 0 := rfl
          rw [h0, Nat.zero_add] at h
          simpa using h
      | some out =>
          by_cases h : hasIterationLimit out
          · simp only [h, if_true]
            rw [runFallback_usedFallback]
            have hc := runFallback_count llm mem
              ([⟨Role.user, u⟩] ++ [⟨Role.user, u⟩, ⟨Role.assistant, out⟩]) u
            have h1 : countAssistant ([(⟨Role.user, u⟩ : Msg)] ++
                [⟨Role.user, u⟩, ⟨Role.assistant, out⟩]) = 1 := rfl
            rw [h1, ← List.append_assoc] at hc
            simpa using hc
          · simp only [eq_false_of_ne_true h, if_false, Bool.false_eq_true]
            show countAssistant
                ((((mem ++ [Msg.mk Role.user u]) ++
                    [Msg.mk Role.user u, Msg.mk Role.assistant out]) ++
                  [Msg.mk Role.assistant out]).drop mem.length) =
              1 + (if false = true then (if isErr (llm (fallbackPrompt u)) then 0 else 1)
                else 1)
            rw [List.append_assoc, List.append_assoc, List.drop_left]
            rfl

/-- C2 amended witness: a concrete successful agent turn appends two
assistant messages (the chain's saved one and the explicit duplicate). -/
theorem assistant_messages_per_turn_witness :
    countAssistant ((get_chat_response (Except.ok (some "A fine answer"))
        (fun _ => Except.ok "unused") [] "q").memory.drop
      ([] : List Msg).length) = 2 := by
  rw [assistant_messages_per_turn (Except.ok (some "A fine answer"))
    (fun _ => Except.ok "unused") [] "q"]
  decide

/-- C4: when every internal step fails — the agent run raises or returns an
invalid result, and the fallback completion raises — `get_chat_response`
returns the fixed user-safe error text, and the `/chat` boundary wraps
exactly that text in a 200 response; no raw exception text reaches the
caller (the route's `serverError` branch is unreachable from a turn
failure). -/
theorem unrecoverable_failure_fixed_reply (a : AgentResp)
    (llm : String → Except Unit String) (mem : List Msg) (u : String)
    (hf : (get_chat_response a llm mem u).usedFallback = true)
    (he : llm (fallbackPrompt u) = Except.error ()) :
    (get_chat_response a llm mem u).reply = errorReply ∧
    (u ≠ "" → chat_api true (some u) a llm mem = ApiResult.ok errorReply) ∧
    (∀ loggedIn jsonInput msg,
      chat_api loggedIn jsonInput a llm mem ≠ ApiResult.serverError msg) := by
  have hreply : (get_chat_response a llm mem u).reply = errorReply := by
    unfold get_chat_response at hf ⊢
    cases a with
    | error e => exact runFallback_reply_err llm _ u he
    | ok o =>
        cases o with
        | none => exact runFallback_reply_err llm _ u he
        | some out =>
            by_cases h : hasIterationLimit out
            · simp only [h, if_true]
              exact runFallback_reply_err llm _ u he
            · simp only [eq_false_of_ne_true h, if_false, Bool.false_eq_true] at hf
  refine ⟨hreply, ?_, ?_⟩
  · intro hu
    unfold chat_api
    simp [hu, hreply]
  · intro loggedIn jsonInput msg
    unfold chat_api
    cases loggedIn with
    | false => simp
    | true =>
        cases jsonInput with
        | none => simp
        | some v =>
            by_cases hv : v = "" <;> simp [hv]

/-- C4 witness: concrete turn in which the agent raises and the fallback
completion raises; the reply is the fixed error text and the boundary
returns it in a 200 response. -/
theorem unrecoverable_failure_fixed_reply_witness :
    (get_chat_response (Except.error ()) (fun _ => Except.error ()) [] "hi").reply
        = errorReply ∧
    chat_api true (some "hi") (Except.error ()) (fun _ => Except.error ()) []
        = ApiResult.ok errorReply :=
  ⟨(unrecoverable_failure_fixed_reply (Except.error ()) (fun _ => Except.error ())
      [] "hi" rfl rfl).1,
   (unrecoverable_failure_fixed_reply (Except.error ()) (fun _ => Except.error ())
      [] "hi" rfl rfl).2.1 (by decide)⟩

/-- C10: the user utterance is appended to the Conversation Window as a human
message at the head of the turn — before any write of the agent run, the
chain's `save_context`, or the fallback — and it is still there on every
exit path: agent success, fallback success, and the double-failure path
returning the fixed error reply.  The pre-existing window is a preserved
prefix, so the window is never rolled back on error. -/
theorem user_message_retained (a : AgentResp) (llm : String → Except Unit String)
    (mem : List Msg) (u : String) :
    ∃ rest, (get_chat_response a llm mem u).memory = mem ++ ⟨Role.user, u⟩ :: rest :=
  turn_memory_shape a llm mem u

/-- C5 counterexample: on a fallback turn for the utterance `"hi"`, the single
completion request carries the prompt `"Provide an answer to: hi"` — not the
raw utterance alone, contradicting the claim that the prompt is only the raw
utterance with no added wrapping text. -/
theorem fallback_prompt_counterexample :
    (get_chat_response (Except.error ()) (fun _ => Except.ok "ans") [] "hi").usedFallback
        = true ∧
    (get_chat_response (Except.error ()) (fun _ => Except.ok "ans") [] "hi").fallbackCalls
        = ["Provide an answer to: hi"] ∧
    (get_chat_response (Except.error ()) (fun _ => Except.ok "ans") [] "hi").fallbackCalls
        ≠ ["hi"] := by
  refine ⟨rfl, by decide, by decide⟩

/-- C5 amended: when the fallback fires it issues exactly one direct,
tool-free completion request, whose prompt is the raw utterance prefixed
with the fixed wrapper text `"Provide an answer to: "`, and that
completion's text becomes the turn's answer; when the fallback does not
fire, no completion request is issued. -/
theorem fallback_single_wrapped_call (a : AgentResp)
    (llm : String → Except Unit String) (mem : List Msg) (u : String) :
    ((get_chat_response a llm mem u).usedFallback = true →
      (get_chat_response a llm mem u).fallbackCalls = ["Provide an answer to: " ++ u] ∧
      ∀ fb, llm (fallbackPrompt u) = Except.ok fb →
        (get_chat_response a llm mem u).reply = fb) ∧
    ((get_chat_response a llm mem u).usedFallback = false →
      (get_chat_response a llm mem u).fallbackCalls = []) := by
  unfold get_chat_response
  cases a with
  | error e =>
      refine ⟨fun _ => ⟨runFallback_calls llm _ u, fun fb hfb =>
        runFallback_reply_ok llm _ u fb hfb⟩, fun hf => ?_⟩
      exact absurd (runFallback_usedFallback llm _ u) (by rw [hf]; simp)
  | ok o =>
      cases o with
      | none =>
          refine ⟨fun _ => ⟨runFallback_calls llm _ u, fun fb hfb =>
            runFallback_reply_ok llm _ u fb hfb⟩, fun hf => ?_⟩
          exact absurd (runFallback_usedFallback llm _ u) (by rw [hf]; simp)
      | some out =>
          by_cases h : hasIterationLimit out
          · simp only [h, if_true]
            refine ⟨fun _ => ⟨runFallback_calls llm _ u, fun fb hfb =>
              runFallback_reply_ok llm _ u fb hfb⟩, fun hf => ?_⟩
            exact absurd (runFallback_usedFallback llm _ u) (by rw [hf]; simp)
          · simp only [eq_false_of_ne_true h, if_false, Bool.false_eq_true]
            exact ⟨fun hf => hf.elim, fun _ => trivial⟩

/-- C5 amended witness: concrete fallback turn whose one completion request
carries the wrapped prompt and whose completion text is returned. -/
theorem fallback_single_wrapped_call_witness :
    (get_chat_response (Except.error ()) (fun _ => Except.ok "ans") [] "hi").fallbackCalls
        = ["Provide an answer to: " ++ "hi"] ∧
    (get_chat_response (Except.error ()) (fun _ => Except.ok "ans") [] "hi").reply
        = "ans" :=
  ⟨((fallback_single_wrapped_call (Except.error ()) (fun _ => Except.ok "ans")
      [] "hi").1 rfl).1,
   ((fallback_single_wrapped_call (Except.error ()) (fun _ => Except.ok "ans")
      [] "hi").1 rfl).2 "ans" rfl⟩

/-- C6 counterexample: after six successful turns the stored conversation
window holds 24 messages (each turn appends the explicit human message, the
chain's `save_context` duplicate human+assistant pair, and the explicit
assistant message), far exceeding the claimed bound of 2k = 10 — the store
is never pruned, so no eviction of the oldest pair happened. -/
theorem window_bound_counterexample :
    (memAfterTurns 6).length = 24 ∧ ¬ (memAfterTurns 6).length ≤ 2 * memoryK := by
  refine ⟨by decide, by decide⟩

/-- C6 amended: the stored conversation history is unbounded; what is limited
is the window view handed to the completion service, the slice of the last
`2k = 10` stored messages: its length is `min (history length) 10` (hence
never more than 10), and it is a suffix of the history, so the relative
chronological order of the retained messages is unchanged.  The slice is by
message count, not by user+assistant pairs. -/
theorem window_view_bounded (mem : List Msg) :
    (windowView memoryK mem).length = min mem.length (2 * memoryK) ∧
    (windowView memoryK mem).length ≤ 2 * memoryK ∧
    windowView memoryK mem <:+ mem := by
  refine ⟨?_, ?_, List.drop_suffix _ _⟩
  · show (mem.drop (mem.length - 2 * memoryK)).length = min mem.length (2 * memoryK)
    rw [List.length_drop]
    omega
  · show (mem.drop (mem.length - 2 * memoryK)).length ≤ 2 * memoryK
    rw [List.length_drop]
    omega

/-- Iterations consumed by the loop never exceed the remaining budget. -/
theorem runLoop_le (plan : Nat → StepOutcome) :
    ∀ fuel iters, (runLoop plan fuel iters).2 ≤ iters + fuel := by
  intro fuel
  induction fuel with
  | zero =>
      intro iters
      show iters ≤ iters + 0
      omega
  | succ f ih =>
      intro iters
      unfold runLoop
      cases plan iters with
      | finish a =>
          show iters ≤ iters + (f + 1)
          omega
      | act t i =>
          have := ih (iters + 1)
          show (runLoop plan f (iters + 1)).2 ≤ iters + (f + 1)
          omega
      | parseFailure =>
          have := ih (iters + 1)
          show (runLoop plan f (iters + 1)).2 ≤ iters + (f + 1)
          omega

/-- When every planning step fails to parse, the loop consumes its whole
budget and stops. -/
theorem runLoop_all_parse (plan : Nat → StepOutcome)
    (hp : ∀ i, plan i = StepOutcome.parseFailure) :
    ∀ fuel iters, runLoop plan fuel iters = (LoopResult.stopped, iters + fuel) := by
  intro fuel
  induction fuel with
  | zero => intro iters; rfl
  | succ f ih =>
      intro iters
      unfold runLoop
      rw [hp iters]
      show runLoop plan f (iters + 1) = (LoopResult.stopped, iters + (f + 1))
      rw [ih (iters + 1)]
      have h : iters + 1 + f = iters + (f + 1) := by omega
      rw [h]

/-- C7: for every planning behaviour the reasoning loop terminates within
`max_iterations = 20` cycles, always in a terminal state (`finished` with an
answer, or the early-stop `stopped` state); a run in which every reply fails
to parse consumes all 20 iterations — parse failures use up budget instead
of ending the loop immediately. -/
theorem loop_terminates_within_budget (plan : Nat → StepOutcome) :
    (agent_executor plan).2 ≤ max_iterations ∧
    ((agent_executor plan).1 = LoopResult.stopped ∨
      ∃ ans, (agent_executor plan).1 = LoopResult.finished ans) ∧
    ((∀ i, plan i = StepOutcome.parseFailure) →
      agent_executor plan = (LoopResult.stopped, max_iterations)) := by
  refine ⟨?_, ?_, ?_⟩
  · have := runLoop_le plan max_iterations 0
    simpa [agent_executor] using this
  · cases h : (agent_executor plan).1 with
    | finished a => exact Or.inr ⟨a, rfl⟩
    | stopped => exact Or.inl rfl
  · intro hp
    have := runLoop_all_parse plan hp max_iterations 0
    simpa [agent_executor] using this

/-- C7 witness: under the always-unparseable planner the loop stops exactly
at the 20-iteration budget. -/
theorem loop_terminates_within_budget_witness :
    agent_executor (fun _ => StepOutcome.parseFailure)
      = (LoopResult.stopped, max_iterations) :=
  (loop_terminates_within_budget (fun _ => StepOutcome.parseFailure)).2.2
    (fun _ => rfl)

/-- Every member of an option list is a contiguous substring of its
newline-join. -/
theorem mem_joinNewline_substring {o : String} :
    ∀ opts : List String, o ∈ opts → o.data <:+: (joinNewline opts).data := by
  intro opts
  induction opts with
  | nil => intro h; cases h
  | cons a rest ih =>
      intro h
      cases rest with
      | nil =>
          have heq : o = a := List.eq_of_mem_singleton h
          subst heq
          exact List.infix_refl _
      | cons b rest2 =>
          rcases List.mem_cons.mp h with h1 | h2
          · subst h1
            show o.data <:+: ((o ++ "\n") ++ joinNewline (b :: rest2)).data
            rw [String.data_append, String.data_append, List.append_assoc]
            exact (List.prefix_append _ _).isInfix
          · refine (ih h2).trans ?_
            show (joinNewline (b :: rest2)).data <:+:
              ((a ++ "\n") ++ joinNewline (b :: rest2)).data
            rw [String.data_append]
            exact (List.suffix_append _ _).isInfix

/-- C3: for every input string and every behaviour of the external
`wikipedia.summary` call, `search_wikipedia` returns a text value and no
exception escapes: a summary is passed through, a disambiguation failure
returns text enumerating the candidate titles (each candidate occurs in the
returned text), a page-not-found failure returns the fixed no-results text,
and any other exception returns text prefixed with the `"Error: "` marker. -/
theorem search_wikipedia_total (wiki : String → WikiOutcome) (q : String) :
    (∀ t, wiki (sanitize q) = WikiOutcome.ok t → search_wikipedia wiki q = t) ∧
    (wiki (sanitize q) = WikiOutcome.pageError →
      search_wikipedia wiki q = "No results found on Wikipedia.") ∧
    (∀ t opts, wiki (sanitize q) = WikiOutcome.disambiguation t opts →
      search_wikipedia wiki q =
        "Multiple results found: " ++ disambiguationStr t opts ∧
      ∀ o ∈ opts, o.data <:+: (search_wikipedia wiki q).data) ∧
    (∀ m, wiki (sanitize q) = WikiOutcome.otherError m →
      search_wikipedia wiki q = "Error: " ++ m ∧
      "Error: ".data <+: (search_wikipedia wiki q).data) := by
  refine ⟨?_, ?_, ?_, ?_⟩
  · intro t ht
    unfold search_wikipedia
    rw [ht]
  · intro ht
    unfold search_wikipedia
    rw [ht]
  · intro t opts ht
    unfold search_wikipedia
    rw [ht]
    refine ⟨rfl, ?_⟩
    intro o ho
    show o.data <:+: ("Multiple results found: " ++ disambiguationStr t opts).data
    have h1 : (joinNewline opts).data <:+ (disambiguationStr t opts).data := by
      show (joinNewline opts).data <:+
        ((("\"" ++ t) ++ "\" may refer to: \n") ++ joinNewline opts).data
      rw [String.data_append]
      exact List.suffix_append _ _
    have h2 : (disambiguationStr t opts).data <:+
        ("Multiple results found: " ++ disambiguationStr t opts).data := by
      rw [String.data_append]
      exact List.suffix_append _ _
    exact (mem_joinNewline_substring opts ho).trans ((h1.trans h2).isInfix)
  · intro m hm
    unfold search_wikipedia
    rw [hm]
    refine ⟨rfl, ?_⟩
    show "Error: ".data <+: ("Error: " ++ m).data
    rw [String.data_append]
    exact List.prefix_append _ _

/-- C3 witness: concrete failing lookups — page-not-found yields the fixed
text, and a generic failure yields the error-marked text. -/
theorem search_wikipedia_total_witness :
    search_wikipedia (fun _ => WikiOutcome.pageError) "anything"
        = "No results found on Wikipedia." ∧
    search_wikipedia (fun _ => WikiOutcome.otherError "boom") "" = "Error: " ++ "boom" :=
  ⟨(search_wikipedia_total (fun _ => WikiOutcome.pageError) "anything").2.1 rfl,
   ((search_wikipedia_total (fun _ => WikiOutcome.otherError "boom") "").2.2.2
      "boom" rfl).1⟩

/-- The head of `dropWhile p` never satisfies `p`. -/
theorem dropWhile_head_not (p : Char → Bool) :
    ∀ (l : List Char) (c : Char), (l.dropWhile p).head? = some c → p c = false := by
  intro l
  induction l with
  | nil => intro c h; simp [List.dropWhile] at h
  | cons a l ih =>
      intro c h
      by_cases hp : p a
      · rw [List.dropWhile_cons_of_pos hp] at h
        exact ih c h
      · rw [List.dropWhile_cons_of_neg hp] at h
        have heq : a = c := by simpa using h
        subst heq
        exact eq_false_of_ne_true hp

/-- Stripping only removes characters: the result is a sublist. -/
theorem pyStrip_sublist (l : List Char) : List.Sublist (pyStrip l) l := by
  unfold pyStrip
  have h2 : List.Sublist ((l.dropWhile pyIsSpace).reverse.dropWhile pyIsSpace)
      (l.dropWhile pyIsSpace).reverse :=
    (List.dropWhile_suffix _).sublist
  have h3 := h2.reverse
  rw [List.reverse_reverse] at h3
  exact h3.trans (List.dropWhile_suffix _).sublist

/-- A stripped list starts and ends with non-whitespace. -/
theorem pyStrip_ends (l : List Char) :
    (∀ c, (pyStrip l).head? = some c → pyIsSpace c = false) ∧
    (∀ c, (pyStrip l).getLast? = some c → pyIsSpace c = false) := by
  constructor
  · intro c h
    have hpre : ((l.dropWhile pyIsSpace).reverse.dropWhile pyIsSpace).reverse <+:
        l.dropWhile pyIsSpace := by
      have h1 := List.reverse_prefix.mpr
        (List.dropWhile_suffix (l := (l.dropWhile pyIsSpace).reverse) pyIsSpace)
      rwa [List.reverse_reverse] at h1
    obtain ⟨t, ht⟩ := hpre
    have hS1 : (l.dropWhile pyIsSpace).head? = some c := by
      unfold pyStrip at h
      rw [← ht, List.head?_append, h]
      rfl
    exact dropWhile_head_not pyIsSpace l c hS1
  · intro c h
    unfold pyStrip at h
    rw [List.getLast?_reverse] at h
    exact dropWhile_head_not pyIsSpace _ c h

/-- C8: sanitization removes every character outside letters, digits and
whitespace (only removes — the remaining characters keep their order), then
trims whitespace from both ends; concretely, the utterance
`"What is quantum computing"` sanitizes to itself, so the query
`"quantum computing"` is a suffix of the sanitized text. -/
theorem sanitize_spec (q : String) :
    (∀ c ∈ (sanitize q).data, keepChar c = true) ∧
    List.Sublist (sanitize q).data q.data ∧
    (∀ c, (sanitize q).data.head? = some c → pyIsSpace c = false) ∧
    (∀ c, (sanitize q).data.getLast? = some c → pyIsSpace c = false) ∧
    sanitize "What is quantum computing" = "What is quantum computing" ∧
    "quantum computing".data <:+ (sanitize "What is quantum computing").data := by
  refine ⟨?_, ?_, (pyStrip_ends (q.data.filter keepChar)).1,
    (pyStrip_ends (q.data.filter keepChar)).2, by decide, by decide⟩
  · intro c hc
    have hc2 : c ∈ q.data.filter keepChar :=
      (pyStrip_sublist (q.data.filter keepChar)).subset hc
    exact List.of_mem_filter hc2
  · exact (pyStrip_sublist (q.data.filter keepChar)).trans (List.filter_sublist _)

/-- C8 witness: the sanitized example starts with a kept, non-whitespace
character, obtained through the theorem at the concrete utterance. -/
theorem sanitize_spec_witness :
    pyIsSpace 'W' = false ∧ keepChar 'W' = true :=
  ⟨(sanitize_spec "What is quantum computing").2.2.1 'W' (by decide),
   (sanitize_spec "What is quantum computing").1 'W' (by decide)⟩

/-- Two-digit zero-padding really is two characters wide below 100. -/
theorem pad2_length (n : Nat) (h : n < 100) : (pad2 n).length = 2 := by
  interval_cases n <;> rfl

/-- C9: the Clock adapter's output is independent of the host timezone
setting (the same instant renders identically under any host offset), and it
renders the instant shifted 300 minutes behind UTC (the fixed UTC-5 offset)
in the `YYYY-MM-DD hh:mm AM/PM` shape: a zero-padded date, a 12-hour field
between 01 and 12, a zero-padded minute below 60, and an `AM`/`PM` marker
that reads `AM` exactly before noon.  The adapter takes no input besides the
ambient instant and is total. -/
theorem clock_fixed_offset_format (o1 o2 : Int) (utc : Nat) :
    get_current_time o1 utc = get_current_time o2 utc ∧
    get_current_time o1 utc =
      pad4 (civilFromDays ((utc - 300) / 1440)).1 ++ "-" ++
        pad2 (civilFromDays ((utc - 300) / 1440)).2.1 ++ "-" ++
        pad2 (civilFromDays ((utc - 300) / 1440)).2.2 ++ " " ++
        pad2 (hour12 (((utc - 300) % 1440) / 60)) ++ ":" ++
        pad2 ((utc - 300) % 60) ++ " " ++ ampm (((utc - 300) % 1440) / 60) ∧
    1 ≤ hour12 (((utc - 300) % 1440) / 60) ∧
    hour12 (((utc - 300) % 1440) / 60) ≤ 12 ∧
    (utc - 300) % 60 < 60 ∧
    (pad2 ((utc - 300) % 60)).length = 2 ∧
    (pad2 (hour12 (((utc - 300) % 1440) / 60))).length = 2 ∧
    (ampm (((utc - 300) % 1440) / 60) = "AM" ↔ ((utc - 300) % 1440) / 60 < 12) := by
  have hmod : (utc - 300) % 60 < 60 := by omega
  have hhour : ((utc - 300) % 1440) / 60 < 24 := by omega
  have h1 : 1 ≤ hour12 (((utc - 300) % 1440) / 60) := by
    unfold hour12
    split <;> omega
  have h12 : hour12 (((utc - 300) % 1440) / 60) ≤ 12 := by
    unfold hour12
    split <;> omega
  refine ⟨rfl, rfl, h1, h12, hmod, pad2_length _ (by omega), pad2_length _ (by omega),
    ?_⟩
  unfold ampm
  rw [Nat.mod_eq_of_lt hhour]
  by_cases hlt : ((utc - 300) % 1440) / 60 < 12
  · simp [hlt]
  · simp only [hlt, if_false]
    constructor
    · intro hcontr
      exact absurd hcontr (by decide)
    · intro hcontr
      exact hcontr.elim

/-- C6 amended witness: after six turns (12 stored messages) the window view
is bounded by 10 messages and is a suffix of the stored history. -/
theorem window_view_bounded_witness :
    (windowView memoryK (memAfterTurns 6)).length ≤ 2 * memoryK ∧
    windowView memoryK (memAfterTurns 6) <:+ memAfterTurns 6 :=
  ⟨(window_view_bounded (memAfterTurns 6)).2.1,
   (window_view_bounded (memAfterTurns 6)).2.2⟩

/-- C9 witness: the same instant renders identically under two different host
offsets. -/
theorem clock_fixed_offset_format_witness :
    get_current_time 0 1000000 = get_current_time 120 1000000 :=
  (clock_fixed_offset_format 0 120 1000000).1

/-- C10 witness: even on the double-failure turn the human message for the
utterance stays in the window. -/
theorem user_message_retained_witness :
    ∃ rest, (get_chat_response (Except.error ()) (fun _ => Except.error ()) [] "hi").memory
        = [] ++ ⟨Role.user, "hi"⟩ :: rest :=
  user_message_retained (Except.error ()) (fun _ => Except.error ()) [] "hi"

end WikipediaChatbot
